import Mathlib

/-!
Shallow embedding of the emgmap2 field-canvassing web application.

The embedded code:
* the `Home` page component (state hooks, `handleTargetClick`,
  `handleClearRoute`, `logResult`, the data-loading effect, and the
  printable street-sheet table);
* the `MapComponent` route-line effect (removal of the tracked polyline,
  score-descending sort, polyline and numbered badge drawing);
* the `ControlPanel` route-tab buttons (disabled conditions).

JavaScript numbers used by the claims (scores, coordinates, counters) are
modelled as `Int`/`Nat`; `Array.prototype.sort` with the comparator
`(a, b) => b.score - a.score` is a stable sort placing higher scores first,
modelled by Mathlib's stable `List.insertionSort` under the relation
`scoreDescRel`.  Leaflet layer objects are identified by an allocation id
(`Artifact.aid`), mirroring JavaScript object identity, so that
`map.removeLayer` removes exactly the tracked layer.
-/

/-- A prospect address record, as in the `Target` interface of the page and
map components. -/
structure Target where
  id : String
  lat : Int
  lng : Int
  address : String
  score : Int
  lmi : Bool
  kwh : Int
  owner : Bool
  sqft : Int
  year : Int
deriving DecidableEq

/-- A zone feature, as in the `Zone` interface of `MapComponent`. -/
structure Zone where
  geoid : String
  name : String
  countyName : Option String
deriving DecidableEq

/-- The session tally held in the `stats` state hook. -/
structure Stats where
  doors : Nat
  deals : Nat
  callbacks : Nat
deriving DecidableEq

/-- The `currentView` state of the page component. -/
inductive ViewKind where
  | map : ViewKind
  | sheet : ViewKind
deriving DecidableEq

/-- The state hooks of the `Home` page component. -/
structure AppState where
  zones : List Zone
  targets : List Target
  loading : Bool
  showLMI : Bool
  showTargets : Bool
  showRoute : Bool
  routeTargets : List Target
  currentView : ViewKind
  stats : Stats
deriving DecidableEq

/-- The initial values of the page component's state hooks. -/
def initialState : AppState :=
  { zones := []
    targets := []
    loading := true
    showLMI := true
    showTargets := true
    showRoute := false
    routeTargets := []
    currentView := ViewKind.map
    stats := { doors := 0, deals := 0, callbacks := 0 } }

/-- `handleTargetClick` of the page component: if a target with the same id is
already in the route, remove every entry with that id, otherwise append the
target. -/
def handleTargetClick (target : Target) (st : AppState) : AppState :=
  if (st.routeTargets.find? (fun t => t.id == target.id)).isSome then
    { st with routeTargets := st.routeTargets.filter (fun t => t.id != target.id) }
  else
    { st with routeTargets := st.routeTargets ++ [target] }

/-- `handleClearRoute` of the page component: empty the route and turn the
route-visibility flag off. -/
def handleClearRoute (st : AppState) : AppState :=
  { st with routeTargets := [], showRoute := false }

/-- The outcome argument of `logResult` (the string union
`deal | callback | ni | nh`). -/
inductive Outcome where
  | deal : Outcome
  | callback : Outcome
  | ni : Outcome
  | nh : Outcome
deriving DecidableEq

/-- `logResult` of the page component: bump `doors` always, `deals` on a deal,
`callbacks` on a callback.  The `targetId` argument is unused by the code. -/
def logResult (targetId : String) (result : Outcome) (st : AppState) : AppState :=
  { st with stats :=
      { doors := st.stats.doors + 1
        deals := if result = Outcome.deal then st.stats.deals + 1 else st.stats.deals
        callbacks := if result = Outcome.callback then st.stats.callbacks + 1 else st.stats.callbacks } }

/-- Result of one startup fetch-and-parse: either the parsed document or any
failure (network error or JSON parse error), which the `.catch` handler maps
to a default. -/
inductive FetchResult (α : Type) where
  | ok : α → FetchResult α
  | failure : FetchResult α

/-- The parsed zone fetch body (any valid JSON value), classified by how the
`.then` handler's `zoneData.features` expression behaves on it:
* `jnull` — the body is the JSON value `null`; the property access
  `zoneData.features` throws a TypeError;
* `featuresArr fs` — an object whose `features` field holds an array
  (arrays, even empty ones, are truthy, so `setZones(fs)` runs);
* `featuresTruthyNonArr` — an object whose `features` field holds a truthy
  non-array value (a non-empty string, a non-zero number, `true`, or an
  object); `setZones` stores that non-array value;
* `noFeatures` — any other body: an object without a `features` field or
  with a falsy one, or a primitive/array body, where `.features` is
  undefined or falsy and the guard skips. -/
inductive ZoneDoc where
  | jnull : ZoneDoc
  | featuresArr : List Zone → ZoneDoc
  | featuresTruthyNonArr : ZoneDoc
  | noFeatures : ZoneDoc
deriving DecidableEq

/-- The parsed target fetch body (any valid JSON value), classified by how
the `.then` handler's `targetData.length > 0` expression behaves on it:
* `jnull` — the body is the JSON value `null`; `targetData.length` throws a
  TypeError;
* `list ts` — a JSON array; `.length` is its element count;
* `str s` — a JSON string; `.length` is its character count, so a non-empty
  string passes the guard and `setTargets` stores the string (an object body
  carrying a positive numeric `length` field behaves the same way);
* `noLength` — a number, boolean, or object without a positive numeric
  `length`; `.length > 0` is false and the guard skips. -/
inductive TargetDoc where
  | jnull : TargetDoc
  | list : List Target → TargetDoc
  | str : String → TargetDoc
  | noLength : TargetDoc
deriving DecidableEq

/-- The zone promise `fetch(...).then(r => r.json()).catch(() => ({ features: [] }))`:
the catch handler substitutes an object with an empty `features` array only
for network and parse errors; a successfully parsed body passes through. -/
def resolveZones : FetchResult ZoneDoc → ZoneDoc
  | FetchResult.ok d => d
  | FetchResult.failure => ZoneDoc.featuresArr []

/-- The target promise `fetch(...).then(r => r.json()).catch(() => [])`:
the catch handler substitutes an empty array only for network and parse
errors; a successfully parsed body passes through. -/
def resolveTargets : FetchResult TargetDoc → TargetDoc
  | FetchResult.ok d => d
  | FetchResult.failure => TargetDoc.list []

/-- What the `zones` state holds after the effect: the intended array, or the
truthy non-array `features` value that `setZones` stored as-is. -/
inductive StoredZones where
  | arr : List Zone → StoredZones
  | nonArr : StoredZones
deriving DecidableEq

/-- What the `targets` state holds after the effect: the intended array, or
the string body that `setTargets` stored as-is. -/
inductive StoredTargets where
  | arr : List Target → StoredTargets
  | strVal : String → StoredTargets
deriving DecidableEq

/-- The component state touched by the data-loading effect, plus whether the
`.then` handler threw.  The effect runs once on mount, from `zones = []`,
`targets = []`, `loading = true`. -/
structure LoadResult where
  zones : StoredZones
  targets : StoredTargets
  loading : Bool
  threw : Bool
deriving DecidableEq

/-- The `.then` handler of the data-loading effect, statement by statement:
`if (zoneData.features) setZones(zoneData.features)`, then
`if (targetData.length > 0) setTargets(targetData)`, then
`setLoading(false)`.  A TypeError thrown by a property access on a `null`
body aborts the handler there: the remaining statements never run, so the
state keeps whatever had been stored up to that point and `loading` stays
true. -/
def runLoadHandler (zoneData : ZoneDoc) (targetData : TargetDoc) : LoadResult :=
  match zoneData with
  | ZoneDoc.jnull =>
      { zones := StoredZones.arr [], targets := StoredTargets.arr [],
        loading := true, threw := true }
  | _ =>
    let zs : StoredZones :=
      match zoneData with
      | ZoneDoc.featuresArr fs => StoredZones.arr fs
      | ZoneDoc.featuresTruthyNonArr => StoredZones.nonArr
      | _ => StoredZones.arr []
    match targetData with
    | TargetDoc.jnull =>
        { zones := zs, targets := StoredTargets.arr [], loading := true, threw := true }
    | TargetDoc.list ts =>
        { zones := zs,
          targets := if 0 < ts.length then StoredTargets.arr ts else StoredTargets.arr [],
          loading := false, threw := false }
    | TargetDoc.str s =>
        { zones := zs,
          targets := if 0 < s.length then StoredTargets.strVal s else StoredTargets.arr [],
          loading := false, threw := false }
    | TargetDoc.noLength =>
        { zones := zs, targets := StoredTargets.arr [], loading := false, threw := false }

/-- The data-loading effect of the page component: `Promise.all` of the two
resolved fetches, then the `.then` handler on the pair. -/
def loadData (z : FetchResult ZoneDoc) (t : FetchResult TargetDoc) : LoadResult :=
  runLoadHandler (resolveZones z) (resolveTargets t)

/-- The comparator `(a, b) => b.score - a.score`: `a` is placed before `b`
exactly when `b.score ≤ a.score` does not force a swap; as a relation,
earlier elements have scores at least as large. -/
def scoreDescRel (a b : Target) : Prop := b.score ≤ a.score

instance : DecidableRel scoreDescRel := fun a b => Int.decLe b.score a.score

instance : IsTotal Target scoreDescRel := ⟨fun a b => le_total b.score a.score⟩

instance : IsTrans Target scoreDescRel := ⟨fun _ _ _ hab hbc => le_trans hbc hab⟩

/-- `[...targets].sort((a, b) => b.score - a.score)`: a stable sort placing
higher scores first, modelled by the stable `List.insertionSort`. -/
def sortByScoreDesc (ts : List Target) : List Target :=
  List.insertionSort scoreDescRel ts

/-- What a drawn Leaflet layer of the route effect is: the dashed connecting
polyline or one numbered order badge. -/
inductive ArtifactKind where
  | polyline : List (Int × Int) → ArtifactKind
  | badge : Int × Int → Nat → ArtifactKind
deriving DecidableEq

/-- A Leaflet layer added to the map by the route effect; `aid` models
JavaScript object identity. -/
structure Artifact where
  aid : Nat
  kind : ArtifactKind
deriving DecidableEq

/-- The Leaflet map as seen by the route effect: the layers currently added,
the `routeLayerRef` ref tracking the polyline, and an allocation counter. -/
structure MapState where
  layers : List Artifact
  routeLayerRef : Option Nat
  nextId : Nat
deriving DecidableEq

/-- A fresh map with no route artifacts. -/
def initMapState : MapState :=
  { layers := [], routeLayerRef := none, nextId := 0 }

/-- The first half of the route effect: if `routeLayerRef.current` is set,
`map.removeLayer` it and null the ref. -/
def removeTrackedRoute (m : MapState) : MapState :=
  match m.routeLayerRef with
  | some rid =>
      { m with layers := m.layers.filter (fun a => a.aid != rid), routeLayerRef := none }
  | none => m

/-- The route-line effect of `MapComponent` (dependencies `[targets, showRoute]`):
remove the tracked polyline; then, when `showRoute && targets.length > 1`,
sort the full target collection by descending score, add the connecting
polyline (tracked by `routeLayerRef`) and one numbered badge marker per sorted
target (added directly to the map, untracked). -/
def routeEffect (showRoute : Bool) (targets : List Target) (m : MapState) : MapState :=
  let m1 := removeTrackedRoute m
  if showRoute = true ∧ 1 < targets.length then
    let sorted := sortByScoreDesc targets
    let coords := sorted.map (fun t => (t.lat, t.lng))
    let lineId := m1.nextId
    let line : Artifact := { aid := lineId, kind := ArtifactKind.polyline coords }
    let badges := sorted.enum.map
      (fun p => Artifact.mk (lineId + 1 + p.1) (ArtifactKind.badge (p.2.lat, p.2.lng) (p.1 + 1)))
    { layers := m1.layers ++ line :: badges
      routeLayerRef := some lineId
      nextId := lineId + 1 + sorted.length }
  else m1

/-- Coordinate lists of the polylines currently on the map. -/
def drawnPolylines (m : MapState) : List (List (Int × Int)) :=
  m.layers.filterMap (fun a =>
    match a.kind with
    | ArtifactKind.polyline cs => some cs
    | _ => none)

/-- Position and order number of the badge markers currently on the map. -/
def drawnBadges (m : MapState) : List ((Int × Int) × Nat) :=
  m.layers.filterMap (fun a =>
    match a.kind with
    | ArtifactKind.badge pos n => some (pos, n)
    | _ => none)

/-- The street-sheet table body:
`(routeTargets.length > 0 ? routeTargets : targets).map((target, idx) => row(idx + 1, target))`. -/
def streetSheetRows (routeTargets targets : List Target) : List (Nat × Target) :=
  ((if 0 < routeTargets.length then routeTargets else targets).enum).map
    (fun p => (p.1 + 1, p.2))

/-- The `disabled` condition of the Print Street Sheet button in the route tab
of `ControlPanel`: `routeTargets.length === 0`. -/
def printStreetSheetDisabled (routeTargets : List Target) : Bool :=
  routeTargets.length == 0

/-- The `disabled` condition of the Clear button in the route tab of
`ControlPanel`: `routeTargets.length === 0`. -/
def clearRouteDisabled (routeTargets : List Target) : Bool :=
  routeTargets.length == 0

/-- One user action touching the route list. -/
inductive RouteOp where
  | toggle : Target → RouteOp
  | clear : RouteOp

/-- Apply one route action to the page state. -/
def applyRouteOp (st : AppState) : RouteOp → AppState
  | RouteOp.toggle t => handleTargetClick t st
  | RouteOp.clear => handleClearRoute st

/-- Run a sequence of route actions from a given state. -/
def runRouteOps (st : AppState) (ops : List RouteOp) : AppState :=
  ops.foldl applyRouteOp st

/-- Sample target with score 90. -/
def t90 : Target :=
  { id := "A", lat := 1, lng := 2, address := "90 High St", score := 90,
    lmi := true, kwh := 1100, owner := true, sqft := 1500, year := 1990 }

/-- Sample target with score 40. -/
def t40 : Target :=
  { id := "B", lat := 3, lng := 4, address := "40 Low St", score := 40,
    lmi := false, kwh := 900, owner := false, sqft := 1200, year := 1975 }

/-- Sample target with score 70. -/
def t70 : Target :=
  { id := "C", lat := 5, lng := 6, address := "70 Mid St", score := 70,
    lmi := true, kwh := 1000, owner := true, sqft := 1300, year := 1984 }

/-! ### Helper lemmas -/

/-- After the removal phase, the polyline ref is always null. -/
theorem removeTrackedRoute_ref (m : MapState) :
    (removeTrackedRoute m).routeLayerRef = none := by
  cases h : m.routeLayerRef <;> simp [removeTrackedRoute, h]

/-- The removal phase only removes layers. -/
theorem removeTrackedRoute_layers_sublist (m : MapState) :
    (removeTrackedRoute m).layers.Sublist m.layers := by
  cases h : m.routeLayerRef <;> simp [removeTrackedRoute, h, List.filter_sublist]

/-- A membership toggle preserves duplicate-freeness of route ids. -/
theorem handleTargetClick_id_nodup (t : Target) (st : AppState)
    (h : (st.routeTargets.map Target.id).Nodup) :
    ((handleTargetClick t st).routeTargets.map Target.id).Nodup := by
  unfold handleTargetClick
  by_cases hf : (st.routeTargets.find? (fun x => x.id == t.id)).isSome = true
  · rw [if_pos hf]
    exact List.Nodup.sublist (List.Sublist.map Target.id (List.filter_sublist _)) h
  · rw [if_neg hf]
    have hnone : st.routeTargets.find? (fun x => x.id == t.id) = none :=
      Option.not_isSome_iff_eq_none.mp hf
    rw [List.find?_eq_none] at hnone
    have hnotin : t.id ∉ st.routeTargets.map Target.id := by
      intro hmem
      rcases List.mem_map.mp hmem with ⟨x, hx, hxid⟩
      exact hnone x hx (by simp [hxid])
    simp [List.nodup_append, h, hnotin]

/-- Running route actions preserves duplicate-freeness of route ids. -/
theorem runRouteOps_id_nodup (ops : List RouteOp) :
    ∀ st : AppState, (st.routeTargets.map Target.id).Nodup →
      ((runRouteOps st ops).routeTargets.map Target.id).Nodup := by
  induction ops with
  | nil => intro st h; exact h
  | cons op rest ih =>
    intro st h
    have hstep : runRouteOps st (op :: rest) = runRouteOps (applyRouteOp st op) rest := by
      simp [runRouteOps]
    rw [hstep]
    apply ih
    cases op with
    | toggle t => exact handleTargetClick_id_nodup t st h
    | clear => simp [applyRouteOp, handleClearRoute]

/-! ### Claims -/

/-- C1 counterexample: with targets of scores [90, 40, 70] (clicked into the
route in that order), the printed street sheet lists scores [90, 40, 70] —
insertion order — and not the claimed descending order [90, 70, 40]; the
same holds for the empty-route fallback to the full collection. -/
theorem c1_sheet_prints_insertion_order_not_sorted :
    (streetSheetRows [t90, t40, t70] [t90, t40, t70]).map (fun r => r.2.score) = [90, 40, 70] ∧
    (streetSheetRows [] [t90, t40, t70]).map (fun r => r.2.score) = [90, 40, 70] ∧
    ¬ (streetSheetRows [t90, t40, t70] [t90, t40, t70]).map (fun r => r.2.score)
        = [90, 70, 40] := by decide

/-- C1 amended: the drawn route path presents the targets sorted by
descending score (the drawn polyline follows the score-descending
permutation of the target collection), but the printed street sheet
presents its rows in insertion order (route list if non-empty, else the
full collection), unsorted. -/
theorem c1_route_line_sorted_sheet_insertion_order :
    (∀ ts : List Target, 1 < ts.length →
        drawnPolylines (routeEffect true ts initMapState)
          = [(sortByScoreDesc ts).map (fun t => (t.lat, t.lng))]) ∧
    (∀ ts : List Target, (sortByScoreDesc ts).Perm ts) ∧
    (∀ ts : List Target, List.Sorted scoreDescRel (sortByScoreDesc ts)) ∧
    (∀ rt ts : List Target,
        (streetSheetRows rt ts).map Prod.snd = if 0 < rt.length then rt else ts) := by
  refine ⟨?_, ?_, ?_, ?_⟩
  · intro ts h
    rw [routeEffect]
    rw [if_pos ⟨rfl, h⟩]
    simp [removeTrackedRoute, initMapState, drawnPolylines, List.filterMap_map]
  · intro ts
    exact List.perm_insertionSort scoreDescRel ts
  · intro ts
    exact List.sorted_insertionSort scoreDescRel ts
  · intro rt ts
    unfold streetSheetRows
    rw [List.map_map]
    have h : (Prod.snd ∘ fun p : Nat × Target => (p.1 + 1, p.2)) = Prod.snd := rfl
    rw [h, List.enum_map_snd]

/-- C1 witness: on the target set with scores [90, 40, 70], the drawn route
polyline visits the targets in score order 90, 70, 40. -/
theorem c1_route_line_sorted_witness :
    1 < ([t90, t40, t70] : List Target).length ∧
    drawnPolylines (routeEffect true [t90, t40, t70] initMapState)
      = [[(1, 2), (5, 6), (3, 4)]] := by
  have h := c1_route_line_sorted_sheet_insertion_order.1 [t90, t40, t70] (by decide)
  exact ⟨by decide, by rw [h]; decide⟩

/-- C2: rebuilding the route layer removes only the tracked polyline; the
numbered badge markers are added untracked and are never removed.  Turning
route-visibility off removes the line but leaves both badges on the map, and
a second draw leaves four badges — artifacts accumulate across re-renders,
contradicting the claim. -/
theorem c2_route_badges_accumulate :
    (drawnBadges (routeEffect false [t90, t40]
        (routeEffect true [t90, t40] initMapState))).length = 2 ∧
    drawnPolylines (routeEffect false [t90, t40]
        (routeEffect true [t90, t40] initMapState)) = [] ∧
    (drawnBadges (routeEffect true [t90, t40]
        (routeEffect true [t90, t40] initMapState))).length = 4 := by decide

/-- C3: for a target whose id is not in the route, one toggle appends it at
the end and a second toggle restores the exact prior state. -/
theorem c3_double_toggle_identity (T : Target) (st : AppState)
    (h : ∀ t ∈ st.routeTargets, t.id ≠ T.id) :
    (handleTargetClick T st).routeTargets = st.routeTargets ++ [T] ∧
    handleTargetClick T (handleTargetClick T st) = st := by
  have hfind : st.routeTargets.find? (fun t => t.id == T.id) = none := by
    rw [List.find?_eq_none]
    intro x hx
    simpa using h x hx
  have h1 : handleTargetClick T st = { st with routeTargets := st.routeTargets ++ [T] } := by
    unfold handleTargetClick
    rw [hfind]
    simp
  refine ⟨by rw [h1], ?_⟩
  rw [h1]
  unfold handleTargetClick
  have hfind2 : (((st.routeTargets ++ [T]).find? (fun t => t.id == T.id)).isSome) = true := by
    rw [List.find?_isSome]
    exact ⟨T, by simp⟩
  rw [if_pos hfind2]
  have hfilter : (st.routeTargets ++ [T]).filter (fun t => t.id != T.id) = st.routeTargets := by
    rw [List.filter_append]
    have heq : st.routeTargets.filter (fun t => t.id != T.id) = st.routeTargets :=
      List.filter_eq_self.mpr (fun x hx => by simpa using h x hx)
    simp [heq]
  simp only [hfilter]

/-- C3 witness: from the initial (empty-route) state, toggling the score-90
target twice is the identity. -/
theorem c3_double_toggle_identity_witness :
    (∀ t ∈ initialState.routeTargets, t.id ≠ t90.id) ∧
    ((handleTargetClick t90 initialState).routeTargets
        = initialState.routeTargets ++ [t90] ∧
      handleTargetClick t90 (handleTargetClick t90 initialState) = initialState) := by
  have hh : ∀ t ∈ initialState.routeTargets, t.id ≠ t90.id := by
    intro t ht
    simp [initialState] at ht
  exact ⟨hh, c3_double_toggle_identity t90 initialState hh⟩

/-- C4: starting from the empty route, any sequence of membership toggles and
clears leaves the route duplicate-free by target id. -/
theorem c4_route_ids_nodup (ops : List RouteOp) :
    ((runRouteOps initialState ops).routeTargets.map Target.id).Nodup :=
  runRouteOps_id_nodup ops initialState (by simp [initialState])

/-- C5: every outcome bumps `doors` by one; `deals` is bumped exactly on a
deal, `callbacks` exactly on a callback (so `ni` and `nh` leave both
unchanged); the route list is untouched. -/
theorem c5_logResult_counters (tid : String) (r : Outcome) (st : AppState) :
    (logResult tid r st).stats.doors = st.stats.doors + 1 ∧
    (logResult tid r st).stats.deals
      = (if r = Outcome.deal then st.stats.deals + 1 else st.stats.deals) ∧
    (logResult tid r st).stats.callbacks
      = (if r = Outcome.callback then st.stats.callbacks + 1 else st.stats.callbacks) ∧
    (logResult tid Outcome.ni st).stats.deals = st.stats.deals ∧
    (logResult tid Outcome.ni st).stats.callbacks = st.stats.callbacks ∧
    (logResult tid Outcome.nh st).stats.deals = st.stats.deals ∧
    (logResult tid Outcome.nh st).stats.callbacks = st.stats.callbacks ∧
    (logResult tid r st).routeTargets = st.routeTargets := by
  unfold logResult
  refine ⟨rfl, rfl, rfl, by simp, by simp, by simp, by simp, rfl⟩

/-- C6: clearing the route empties the route list, forces route-visibility
off, and changes no other state field. -/
theorem c6_clearRoute (st : AppState) :
    (handleClearRoute st).routeTargets = [] ∧
    (handleClearRoute st).showRoute = false ∧
    (handleClearRoute st).zones = st.zones ∧
    (handleClearRoute st).targets = st.targets ∧
    (handleClearRoute st).loading = st.loading ∧
    (handleClearRoute st).showLMI = st.showLMI ∧
    (handleClearRoute st).showTargets = st.showTargets ∧
    (handleClearRoute st).currentView = st.currentView ∧
    (handleClearRoute st).stats = st.stats := by
  unfold handleClearRoute
  exact ⟨rfl, rfl, rfl, rfl, rfl, rfl, rfl, rfl, rfl⟩

/-- C7: the claim fails on valid-JSON malformed bodies, which the per-source
catch handlers do not cover.  A `null` zone body throws a TypeError at
`zoneData.features` inside the shared `.then` handler, so the successfully
fetched target list is never stored and the loading flag never clears — one
source's bad content does block the other.  A `null` target body likewise
throws after the zones were stored, leaving loading stuck.  A JSON string
target body passes the `length > 0` check and is stored as the target
collection instead of yielding zero targets.  Only the caught failure paths
(network or parse errors) degrade to empty collections as claimed. -/
theorem c7_malformed_bodies_throw_or_store :
    (loadData (FetchResult.ok ZoneDoc.jnull)
        (FetchResult.ok (TargetDoc.list [t90]))).threw = true ∧
    (loadData (FetchResult.ok ZoneDoc.jnull)
        (FetchResult.ok (TargetDoc.list [t90]))).targets = StoredTargets.arr [] ∧
    (loadData (FetchResult.ok ZoneDoc.jnull)
        (FetchResult.ok (TargetDoc.list [t90]))).loading = true ∧
    (loadData (FetchResult.ok (ZoneDoc.featuresArr []))
        (FetchResult.ok TargetDoc.jnull)).threw = true ∧
    (loadData (FetchResult.ok (ZoneDoc.featuresArr []))
        (FetchResult.ok TargetDoc.jnull)).loading = true ∧
    (loadData (FetchResult.ok (ZoneDoc.featuresArr []))
        (FetchResult.ok (TargetDoc.str "abc"))).targets = StoredTargets.strVal "abc" ∧
    (loadData (FetchResult.ok ZoneDoc.featuresTruthyNonArr)
        (FetchResult.ok (TargetDoc.list [t90]))).zones = StoredZones.nonArr ∧
    (loadData FetchResult.failure FetchResult.failure).zones = StoredZones.arr [] ∧
    (loadData FetchResult.failure FetchResult.failure).targets = StoredTargets.arr [] ∧
    (loadData FetchResult.failure FetchResult.failure).loading = false ∧
    (loadData FetchResult.failure FetchResult.failure).threw = false := by decide

/-- C8: the route effect draws its polyline exactly when route-visibility is
on and the full target collection has at least two entries; with no targets
it only ever removes layers, and on a fresh map with zero targets nothing is
drawn. -/
theorem c8_route_draw_condition :
    (∀ (s : Bool) (ts : List Target) (m : MapState),
        (routeEffect s ts m).routeLayerRef.isSome = true ↔ s = true ∧ 1 < ts.length) ∧
    (∀ (s : Bool) (m : MapState), ((routeEffect s [] m).layers).Sublist m.layers) ∧
    drawnPolylines (routeEffect true [] initMapState) = [] ∧
    drawnBadges (routeEffect true [] initMapState) = [] := by
  refine ⟨?_, ?_, by decide, by decide⟩
  · intro s ts m
    unfold routeEffect
    by_cases hc : s = true ∧ 1 < ts.length
    · rw [if_pos hc]
      simpa using hc
    · rw [if_neg hc]
      rw [removeTrackedRoute_ref]
      simpa using hc
  · intro s m
    unfold routeEffect
    rw [if_neg (by simp)]
    exact removeTrackedRoute_layers_sublist m

/-- C9: the printed street sheet lists the route list when non-empty and
otherwise the full target collection, in insertion order, with rows numbered
sequentially from 1. -/
theorem c9_street_sheet_fallback_and_numbering (rt ts : List Target) :
    (streetSheetRows rt ts).map Prod.snd = (if 0 < rt.length then rt else ts) ∧
    (streetSheetRows rt ts).map Prod.fst
      = (List.range (if 0 < rt.length then rt else ts).length).map (fun i => i + 1) := by
  unfold streetSheetRows
  constructor
  · rw [List.map_map]
    have h : (Prod.snd ∘ fun p : Nat × Target => (p.1 + 1, p.2)) = Prod.snd := rfl
    rw [h, List.enum_map_snd]
  · rw [List.map_map]
    have h : (Prod.fst ∘ fun p : Nat × Target => (p.1 + 1, p.2))
        = (fun i => i + 1) ∘ Prod.fst := rfl
    rw [h, ← List.map_map, List.enum_map_fst]

/-- C10: the route tab's Print Street Sheet and Clear buttons are disabled
exactly when the route list is empty, so the panel's print action is
invocable only with a non-empty route. -/
theorem c10_route_buttons_disabled_iff_empty (rt : List Target) :
    (printStreetSheetDisabled rt = true ↔ rt = []) ∧
    (clearRouteDisabled rt = true ↔ rt = []) ∧
    (printStreetSheetDisabled rt = false ↔ 0 < rt.length) := by
  unfold printStreetSheetDisabled clearRouteDisabled
  cases rt <;> simp
